import Mathlib

/-!
Shallow embedding of the digisaga frontend pages:
- `src/app/login/page.tsx` (login form: zod `formSchema`, session precheck effect, `onSubmit`)
- `src/unnamed/part_000` (alternate login page: `handleSubmit`)
- `src/unnamed/part_001` (signup page: zod `signUpSchema`, `handleChange`, `handleSignUp`)
- `src/app/page.tsx` (demo greeting fetcher: `handleClick`)

HTTP traffic is modelled by an explicit list of issued requests; the fetch
environment (resolved response or rejection) is an explicit argument.
-/

namespace Digisaga

/-- The JSON fields the pages ever read from a response body
(`errorData.error`, `errorData.message`, `data.user`).  `none` = field absent. -/
structure JsonBody where
  error : Option String
  message : Option String
  user : Option String
deriving Repr, DecidableEq

/-- An HTTP response as the pages observe it: a status and, when the body
parses as JSON, the parsed body (`json = none` models a JSON parse failure). -/
structure Response where
  status : Nat
  json : Option JsonBody
deriving Repr, DecidableEq

/-- `res.ok` of the fetch API: status in the 2xx range. -/
def Response.ok (r : Response) : Bool :=
  decide (200 ≤ r.status) && decide (r.status ≤ 299)

/-- Outcome of a `fetch` call: either the promise rejected (with the thrown
error's `message`), or it resolved to a response. -/
inductive FetchResult where
  | rejected (msg : String)
  | resolved (r : Response)
deriving Repr, DecidableEq

/-- The request bodies the pages serialize with `JSON.stringify`, kept
structured: note that `signupBody` has no confirmPassword component, which is
how the code's `const { confirmPassword, ...payload }` destructuring behaves. -/
inductive ReqBody where
  | loginBody (email password : String)
  | signupBody (name email mobileNumber password : String)
deriving Repr, DecidableEq

/-- One issued network request. `credentialsInclude` records whether the fetch
options carried `credentials: 'include'`. -/
structure Request where
  url : String
  method : String
  body : Option ReqBody
  credentialsInclude : Bool
deriving Repr, DecidableEq

/-- JS `a || b` on an optional string field: `undefined` and `""` are falsy. -/
def jsOrStr (o : Option String) (dflt : String) : String :=
  match o with
  | some s => if s == "" then dflt else s
  | none => dflt

/-- Leading and trailing whitespace removed (JS `String.prototype.trim`). -/
def trimList (l : List Char) : List Char :=
  ((l.dropWhile Char.isWhitespace).reverse.dropWhile Char.isWhitespace).reverse

/-- `s.trim()`. -/
def trimStr (s : String) : String := ⟨trimList s.data⟩

/-- `s.toLowerCase()`. -/
def lowerStr (s : String) : String := ⟨s.data.map Char.toLower⟩

/-- Whether `pat` occurs at the start of `l`. -/
def leadsWith : List Char → List Char → Bool
  | [], _ => true
  | _ :: _, [] => false
  | a :: pat, b :: l => a == b && leadsWith pat l

/-- Whether `pat` occurs somewhere in `l`. -/
def occursIn (pat : List Char) : List Char → Bool
  | [] => leadsWith pat []
  | c :: rest => leadsWith pat (c :: rest) || occursIn pat rest

/-- `s.includes(pat)` (used for the JS `String.includes` calls). -/
def containsStr (s pat : String) : Bool :=
  occursIn pat.data s.data

/-- Split a character list at every occurrence of a separator character. -/
def splitOnChar (sep : Char) : List Char → List (List Char)
  | [] => [[]]
  | c :: rest =>
    match splitOnChar sep rest with
    | h :: t => if c == sep then [] :: h :: t else (c :: h) :: t
    | [] => [[c]]

/-! ### zod string checks

`z.string().email()` uses zod's email pattern
`^(?!\.)(?!.*\.\.)([A-Z0-9_'+\-\.]*)[A-Z0-9_+\-]@([A-Z0-9][A-Z0-9\-]*\.)+[A-Z]{2,}$/i`,
embedded below character class by character class. -/

/-- Characters allowed anywhere in the local part of an email. -/
def localSetChar (c : Char) : Bool :=
  c.isAlpha || c.isDigit || c == '_' || c == '\'' || c == '+' || c == '-' || c == '.'

/-- Characters allowed as the final character of the local part. -/
def localEndChar (c : Char) : Bool :=
  c.isAlpha || c.isDigit || c == '_' || c == '+' || c == '-'

/-- Local part: one or more characters from the allowed set, the last from the
restricted set. -/
def localPartOk : List Char → Bool
  | [] => false
  | [c] => localEndChar c
  | c :: rest => localSetChar c && localPartOk rest

/-- A non-final domain label: `[A-Z0-9][A-Z0-9\-]*`. -/
def labelOk : List Char → Bool
  | [] => false
  | c :: rest => (c.isAlpha || c.isDigit) && rest.all (fun x => x.isAlpha || x.isDigit || x == '-')

/-- The final domain label: `[A-Z]{2,}`. -/
def tldOk (l : List Char) : Bool :=
  decide (2 ≤ l.length) && l.all Char.isAlpha

/-- Domain: `([A-Z0-9][A-Z0-9\-]*\.)+[A-Z]{2,}`. -/
def domainOk (d : List Char) : Bool :=
  match (splitOnChar '.' d).reverse with
  | [] => false
  | tld :: labels => !labels.isEmpty && tldOk tld && labels.all labelOk

/-- zod's email check. -/
def zodEmailOk (s : String) : Bool :=
  !containsStr s ".." && !leadsWith ['.'] s.data &&
  (match splitOnChar '@' s.data with
   | [l, d] => localPartOk l && domainOk d
   | _ => false)

/-- A character matched by `[\d\s-]` in the mobile-number pattern. -/
def mobileChar (c : Char) : Bool :=
  c.isDigit || c.isWhitespace || c == '-'

/-- The signup schema's mobile pattern `^\+?[\d\s-]{8,}$`. -/
def mobilePatternOk (s : String) : Bool :=
  let rest := match s.data with
    | '+' :: r => r
    | l => l
  decide (8 ≤ rest.length) && rest.all mobileChar

/-! ### Signup schema (`signUpSchema` in `src/unnamed/part_001`) -/

/-- The signup form's field values. -/
structure SignUpFormData where
  name : String
  email : String
  mobileNumber : String
  password : String
  confirmPassword : String
deriving Repr, DecidableEq

/-- Per-field message lists, as produced by
`validationResult.error.flatten().fieldErrors`; `[]` models an absent key. -/
structure FormErrors where
  name : List String
  email : List String
  mobileNumber : List String
  password : List String
  confirmPassword : List String
deriving Repr, DecidableEq

def FormErrors.empty : FormErrors := ⟨[], [], [], [], []⟩

/-- `Object.keys(formErrors).length === 0` (keys are present iff non-empty). -/
def FormErrors.isEmpty (e : FormErrors) : Bool :=
  e.name.isEmpty && e.email.isEmpty && e.mobileNumber.isEmpty &&
  e.password.isEmpty && e.confirmPassword.isEmpty

/-- `z.string().trim().min(1)` on the name. -/
def nameFilledOk (s : String) : Bool := decide (1 ≤ (trimStr s).length)

/-- `z.string().trim().min(1)` on the email. -/
def emailFilledOk (s : String) : Bool := decide (1 ≤ (trimStr s).length)

/-- `.email(...)` on the trimmed email. -/
def emailShapeOk (s : String) : Bool := zodEmailOk (trimStr s)

/-- `.min(8, ...)` on the trimmed mobile number. -/
def mobileLenOk (s : String) : Bool := decide (8 ≤ (trimStr s).length)

/-- `.regex(/^\+?[\d\s-]{8,}$/, ...)` on the trimmed mobile number. -/
def mobileShapeOk (s : String) : Bool := mobilePatternOk (trimStr s)

/-- `.min(6, ...)` on the password. -/
def passwordLenOk (s : String) : Bool := decide (6 ≤ s.length)

/-- `.min(1, ...)` on the confirm-password field. -/
def confirmFilledOk (s : String) : Bool := decide (1 ≤ s.length)

/-- zod collects every violated check of a string chain in chain order. -/
def nameIssues (s : String) : List String :=
  if nameFilledOk s then [] else ["Full name is required"]

def emailIssues (s : String) : List String :=
  (if emailFilledOk s then [] else ["Email is required"]) ++
  (if emailShapeOk s then [] else ["Email address is invalid"])

def mobileIssues (s : String) : List String :=
  (if mobileLenOk s then [] else ["Please enter a valid mobile number."]) ++
  (if mobileShapeOk s then [] else ["Please enter a valid mobile number."])

def passwordIssues (s : String) : List String :=
  if passwordLenOk s then [] else ["Password must be at least 6 characters"]

def confirmIssues (s : String) : List String :=
  if confirmFilledOk s then [] else ["Please confirm your password."]

/-- The full issue map of `signUpSchema.safeParse` when it fails: the object
fields collect their string-check issues in field order, and the `.refine`
password-equality check runs whenever the inner parse is not aborted — with
all fields strings it always runs — appending "Passwords do not match" to
confirmPassword's list after that field's own issues. -/
def allIssues (d : SignUpFormData) : FormErrors :=
  ⟨nameIssues d.name, emailIssues d.email, mobileIssues d.mobileNumber,
   passwordIssues d.password,
   confirmIssues d.confirmPassword ++
     (if d.password == d.confirmPassword then [] else ["Passwords do not match"])⟩

/-- `signUpSchema.safeParse`: success exactly when no field check and no
refinement issue arises; on success the parsed data carries the `.trim()`
transforms of name, email and mobileNumber. -/
def signUpSafeParse (d : SignUpFormData) : Except FormErrors SignUpFormData :=
  if (allIssues d).isEmpty then
    .ok ⟨trimStr d.name, trimStr d.email, trimStr d.mobileNumber, d.password, d.confirmPassword⟩
  else
    .error (allIssues d)

/-! ### Signup page state machine (`src/unnamed/part_001`) -/

/-- A signup form field. -/
inductive Field where
  | name | email | mobileNumber | password | confirmPassword
deriving Repr, DecidableEq

/-- Read a field's message list from the error map. -/
def FormErrors.get (e : FormErrors) : Field → List String
  | .name => e.name
  | .email => e.email
  | .mobileNumber => e.mobileNumber
  | .password => e.password
  | .confirmPassword => e.confirmPassword

/-- `delete newErrors[field]`. -/
def FormErrors.clear (e : FormErrors) : Field → FormErrors
  | .name => ⟨[], e.email, e.mobileNumber, e.password, e.confirmPassword⟩
  | .email => ⟨e.name, [], e.mobileNumber, e.password, e.confirmPassword⟩
  | .mobileNumber => ⟨e.name, e.email, [], e.password, e.confirmPassword⟩
  | .password => ⟨e.name, e.email, e.mobileNumber, [], e.confirmPassword⟩
  | .confirmPassword => ⟨e.name, e.email, e.mobileNumber, e.password, []⟩

/-- Update one field of the form data. -/
def SignUpFormData.set (d : SignUpFormData) : Field → String → SignUpFormData
  | .name, v => ⟨v, d.email, d.mobileNumber, d.password, d.confirmPassword⟩
  | .email, v => ⟨d.name, v, d.mobileNumber, d.password, d.confirmPassword⟩
  | .mobileNumber, v => ⟨d.name, d.email, v, d.password, d.confirmPassword⟩
  | .password, v => ⟨d.name, d.email, d.mobileNumber, v, d.confirmPassword⟩
  | .confirmPassword, v => ⟨d.name, d.email, d.mobileNumber, d.password, v⟩

/-- The signup page's React state: `formData`, `formErrors`, the `error`
banner, and the `success` flag. -/
structure SignUpState where
  formData : SignUpFormData
  formErrors : FormErrors
  errorBanner : Option String
  success : Bool
deriving Repr, DecidableEq

/-- `initialState` of the signup page: all fields empty, no errors. -/
def initialSignUpState : SignUpState :=
  ⟨⟨"", "", "", "", ""⟩, FormErrors.empty, none, false⟩

/-- The `field === 'password' || field === 'confirmPassword'` test. -/
def editsPasswordPair : Field → Bool
  | .password => true
  | .confirmPassword => true
  | _ => false

/-- `handleChange(field, value)`: stores the new value, deletes that field's
error entry when present, additionally deletes the confirmPassword entry when
editing either password field while its first message is the mismatch message,
and clears the error banner. -/
def handleChange (s : SignUpState) (f : Field) (v : String) : SignUpState :=
  let fd := s.formData.set f v
  let e1 := if (s.formErrors.get f).isEmpty then s.formErrors else s.formErrors.clear f
  let e2 :=
    if editsPasswordPair f
        && decide (s.formErrors.confirmPassword.head? = some "Passwords do not match")
    then e1.clear Field.confirmPassword else e1
  ⟨fd, e2, none, s.success⟩

/-- `payload.mobileNumber.trim().replace(/\s+/g, '')`. -/
def cleanMobile (s : String) : String :=
  ⟨(trimList s.data).filter (fun c => !c.isWhitespace)⟩

/-- The signup failure message template. -/
def signupStatusMsg (status : Nat) : String :=
  "Signup failed (status " ++ toString status ++ ")"

/-- The state after the signup `catch` block: banner set to the error message,
and an email entry added when the message mentions a duplicate registration. -/
def serverFailState (s : SignUpState) (em : String) : SignUpState :=
  if containsStr (lowerStr em) "already registered" || containsStr (lowerStr em) "email_1" then
    ⟨s.formData, ⟨[], ["This email is already registered."], [], [], []⟩, some em, s.success⟩
  else
    ⟨s.formData, FormErrors.empty, some em, s.success⟩

/-- `handleSignUp(e)` on state `s`, given the configured base URL (or `none`)
and the behaviour of the network (`fetched`).  Returns the next state and the
list of requests issued.  The flow: clear banner and errors, `safeParse` the
form data, refuse on validation failure, then refuse on missing configuration,
then issue exactly one POST (without a `credentials` option) and interpret the
response; a non-ok response's message (`responseData.error` when truthy, else a
"status N" template, or "Could not parse server response" when the body did not
parse) lands in the banner, and when it mentions "already registered" or
"email_1" (case-insensitively) an email entry is added to the error map. -/
def handleSignUp (s : SignUpState) (base : Option String) (fetched : FetchResult) :
    SignUpState × List Request :=
  match signUpSafeParse s.formData with
  | .error errs => (⟨s.formData, errs, none, s.success⟩, [])
  | .ok data =>
    match base with
    | none =>
        (⟨s.formData, FormErrors.empty,
          some "Configuration error. Cannot proceed with signup.", s.success⟩, [])
    | some b =>
      let req : Request :=
        ⟨b ++ "/api/auth/signup", "POST",
         some (.signupBody data.name data.email (cleanMobile data.mobileNumber) data.password),
         false⟩
      match fetched with
      | .rejected m =>
          (serverFailState s (jsOrStr (some m) "An unexpected error occurred"), [req])
      | .resolved r =>
        if r.ok then
          (⟨s.formData, FormErrors.empty, none, true⟩, [req])
        else
          let errField := match r.json with
            | some j => j.error
            | none => some "Could not parse server response"
          let thrown := jsOrStr errField (signupStatusMsg r.status)
          (serverFailState s (jsOrStr (some thrown) "An unexpected error occurred"), [req])

/-- A user-driven event on the signup page. -/
inductive SignUpEvent where
  | edit (f : Field) (v : String)
  | submit (base : Option String) (fetched : FetchResult)

/-- One event step (state part). -/
def signUpStep (s : SignUpState) (e : SignUpEvent) : SignUpState × List Request :=
  match e with
  | .edit f v => (handleChange s f v, [])
  | .submit base fetched => handleSignUp s base fetched

/-- The state reached from the initial signup state by a list of events. -/
def runSignUp (es : List SignUpEvent) : SignUpState :=
  es.foldl (fun s e => (signUpStep s e).1) initialSignUpState

/-! ### Login page (`src/app/login/page.tsx`) -/

/-- The login form's field values. -/
structure LoginFormData where
  email : String
  password : String
deriving Repr, DecidableEq

/-- Per-field first messages produced by `zodResolver(formSchema)`. -/
structure LoginFieldErrors where
  email : Option String
  password : Option String
deriving Repr, DecidableEq

/-- `formSchema`: `email: z.string().email(...)`, `password: z.string().min(6, ...)`. -/
def loginFieldErrors (d : LoginFormData) : LoginFieldErrors :=
  ⟨if zodEmailOk d.email then none else some "Invalid email address",
   if decide (6 ≤ d.password.length) then none else some "Password must be at least 6 characters"⟩

/-- `react-hook-form` invokes `onSubmit` only when the resolver reports no error. -/
def loginValid (d : LoginFormData) : Bool :=
  (loginFieldErrors d).email.isNone && (loginFieldErrors d).password.isNone

/-- Observable outcome of a login submission on the main login page. -/
inductive LoginOutcome where
  | validationFailed (errs : LoginFieldErrors)
  | configError
  | success
  | failure (displayed : String)
deriving Repr, DecidableEq

/-- The login failure fallback template. -/
def loginStatusMsg (status : Nat) : String :=
  "Login failed (status " ++ toString status ++ ")"

/-- `handleSubmit(onSubmit)` of the main login page: validate, refuse on a
missing base URL, otherwise issue exactly one POST with
`credentials: 'include'`; on a non-ok response display `errorData.error`,
else `errorData.message`, else the "status N" template (also used when the
body does not parse as JSON); on a rejected fetch display the generic
connection message. -/
def onSubmit (d : LoginFormData) (base : Option String) (fetched : FetchResult) :
    LoginOutcome × List Request :=
  if loginValid d then
    match base with
    | none => (.configError, [])
    | some b =>
      let req : Request :=
        ⟨b ++ "/api/auth/login", "POST", some (.loginBody d.email d.password), true⟩
      match fetched with
      | .rejected _ =>
          (.failure "Login failed. Please check your connection and try again.", [req])
      | .resolved r =>
        if r.ok then (.success, [req])
        else
          let msg := match r.json with
            | some j => jsOrStr j.error (jsOrStr j.message (loginStatusMsg r.status))
            | none => loginStatusMsg r.status
          (.failure msg, [req])
  else (.validationFailed (loginFieldErrors d), [])

/-! ### Alternate login page (`src/unnamed/part_000`) -/

/-- Observable outcome of a submission on the alternate login page. -/
inductive AltLoginOutcome where
  | missingFields
  | configError
  | success
  | failure (displayed : String)
deriving Repr, DecidableEq

/-- `handleSubmit` of the alternate login page: refuse when either field is
empty, then refuse on a missing base URL, otherwise one POST with
`credentials: 'include'`; a non-ok response displays `errorData.error` when
truthy and otherwise the fixed string "Invalid credentials" (the parse-failure
`.catch` yields an empty object, so the same fixed string). -/
def altHandleSubmit (email password : String) (base : Option String)
    (fetched : FetchResult) : AltLoginOutcome × List Request :=
  if email == "" || password == "" then (.missingFields, [])
  else match base with
  | none => (.configError, [])
  | some b =>
    let req : Request :=
      ⟨b ++ "/api/auth/login", "POST", some (.loginBody email password), true⟩
    match fetched with
    | .rejected _ => (.failure "Please check your connection and try again", [req])
    | .resolved r =>
      if r.ok then (.success, [req])
      else
        let errorData : JsonBody := (r.json).getD ⟨none, none, none⟩
        (.failure (jsOrStr errorData.error "Invalid credentials"), [req])

/-! ### Session precheck (`useEffect` in `LoginPageContent`) -/

/-- What the login page does instead of showing the form while checking. -/
inductive PrecheckResult where
  | redirect
  | renderForm
deriving Repr, DecidableEq

/-- JS truthiness of an optional string field: absent (`undefined`) and the
empty string are falsy. -/
def jsTruthyOpt (o : Option String) : Bool :=
  match o with
  | some s => !(s == "")
  | none => false

/-- The `data?.user` truthiness test on a session response: the body parsed
(`data` not null) and its `user` field truthy. -/
def sessionUserTruthy (r : Response) : Bool :=
  match r.json with
  | some j => jsTruthyOpt j.user
  | none => false

/-- The session-check effect: nothing is fetched when the base URL is missing;
otherwise one GET with `credentials: 'include'`; a redirect happens exactly
when the response is ok and `data?.user` is truthy, and every other outcome
(ok response with absent, empty or unparseable user, non-ok status, rejected
fetch) falls through to rendering the form. -/
def sessionCheck (base : Option String) (fetched : FetchResult) :
    PrecheckResult × List Request :=
  match base with
  | none => (.renderForm, [])
  | some b =>
    let req : Request := ⟨b ++ "/api/auth/session", "GET", none, true⟩
    match fetched with
    | .rejected _ => (.renderForm, [req])
    | .resolved r =>
      if r.ok then
        if sessionUserTruthy r then (.redirect, [req]) else (.renderForm, [req])
      else (.renderForm, [req])

/-! ### Demo greeting fetcher (`src/app/page.tsx`) -/

/-- A greeting response: status and raw body text (`res.text()`). -/
structure GreetResponse where
  status : Nat
  text : String
deriving Repr, DecidableEq

/-- The greeting fetch either rejects or resolves. -/
inductive GreetFetch where
  | rejected
  | resolved (r : GreetResponse)
deriving Repr, DecidableEq

/-- `handleClick`: the new message is the body text of a resolved response
(no status check), and the fixed failure string when the fetch rejects. -/
def handleClick (fetched : GreetFetch) : String :=
  match fetched with
  | .rejected => "Failed to fetch greeting."
  | .resolved r => r.text

/-! ### Spec-side validator description (for the Validator-contract claim) -/

/-- First violated rule of an ordered rule list: each entry pairs the rule's
verdict with its message. -/
def firstViolated : List (Bool × String) → Option String
  | [] => none
  | (ok, msg) :: rest => if ok then firstViolated rest else some msg

/-- A per-field map of (at most) one message per field, as the spec describes
the Validator's output. -/
structure FieldMsgMap where
  name : Option String
  email : Option String
  mobileNumber : Option String
  password : Option String
  confirmPassword : Option String
deriving Repr, DecidableEq

/-- The Validator as the spec words it (amended): each field maps to the first
violated rule's message, the rules running in order per field — name
non-empty; email non-empty then shape; mobile length then pattern; password
length; confirmPassword non-empty then equal to password (the cross-field
rule, reported on confirmPassword).  `none` is the "valid" verdict. -/
def validatorAsSpecified (d : SignUpFormData) : Option FieldMsgMap :=
  let nm := firstViolated [(nameFilledOk d.name, "Full name is required")]
  let em := firstViolated [(emailFilledOk d.email, "Email is required"),
                           (emailShapeOk d.email, "Email address is invalid")]
  let mb := firstViolated [(mobileLenOk d.mobileNumber, "Please enter a valid mobile number."),
                           (mobileShapeOk d.mobileNumber, "Please enter a valid mobile number.")]
  let pw := firstViolated [(passwordLenOk d.password, "Password must be at least 6 characters")]
  let cp := firstViolated [(confirmFilledOk d.confirmPassword, "Please confirm your password."),
                           (d.password == d.confirmPassword, "Passwords do not match")]
  if nm.isNone && em.isNone && mb.isNone && pw.isNone && cp.isNone then none
  else some ⟨nm, em, mb, pw, cp⟩

/-- The code-side validator's observable output in the spec's shape: `none`
for a successful parse, and otherwise the first message of each field's
error-list (what `getErrorMessage` displays). -/
def signUpOutcomeMap (d : SignUpFormData) : Option FieldMsgMap :=
  match signUpSafeParse d with
  | .ok _ => none
  | .error e =>
      some ⟨e.name.head?, e.email.head?, e.mobileNumber.head?,
            e.password.head?, e.confirmPassword.head?⟩

/-! ### The error-map invariant (amended) -/

/-- One field's share of the invariant: the field has no entry, or its current
value is invalid (its issue list is non-empty). -/
def fieldEntryOk (issues errs : List String) : Bool :=
  errs.isEmpty || !issues.isEmpty

/-- The amended error-map invariant of the signup page: every field with an
entry is currently invalid, except that the email entry may instead be the
server-reported duplicate-email message, and the confirmPassword entry may
instead be the mismatch message while the two password values differ. -/
def errorMapInvariant (s : SignUpState) : Bool :=
  fieldEntryOk (nameIssues s.formData.name) s.formErrors.name &&
  fieldEntryOk (mobileIssues s.formData.mobileNumber) s.formErrors.mobileNumber &&
  fieldEntryOk (passwordIssues s.formData.password) s.formErrors.password &&
  (fieldEntryOk (emailIssues s.formData.email) s.formErrors.email
    || decide (s.formErrors.email = ["This email is already registered."])) &&
  (fieldEntryOk (confirmIssues s.formData.confirmPassword) s.formErrors.confirmPassword
    || (decide (s.formErrors.confirmPassword = ["Passwords do not match"])
        && decide (s.formData.password ≠ s.formData.confirmPassword)))

/-! ### Helper lemmas -/

theorem strAppend_assoc (a b c : String) : (a ++ b) ++ c = a ++ (b ++ c) := by
  rcases a with ⟨la⟩; rcases b with ⟨lb⟩; rcases c with ⟨lc⟩
  show String.mk ((la ++ lb) ++ lc) = String.mk (la ++ (lb ++ lc))
  rw [List.append_assoc]

theorem fieldEntryOk_self (i : List String) : fieldEntryOk i i = true := by
  cases i <;> simp [fieldEntryOk]

theorem fieldEntryOk_nil (i : List String) : fieldEntryOk i [] = true := by
  simp [fieldEntryOk]

theorem inv_of_empty (d : SignUpFormData) (b : Option String) (x : Bool) :
    errorMapInvariant ⟨d, FormErrors.empty, b, x⟩ = true := by
  simp [errorMapInvariant, FormErrors.empty, fieldEntryOk_nil]

theorem inv_of_emailMarked (d : SignUpFormData) (b : Option String) (x : Bool) :
    errorMapInvariant ⟨d, ⟨[], ["This email is already registered."], [], [], []⟩, b, x⟩ = true := by
  simp [errorMapInvariant, fieldEntryOk_nil, fieldEntryOk]

theorem inv_of_allIssues (d : SignUpFormData) (b : Option String) (x : Bool) :
    errorMapInvariant ⟨d, allIssues d, b, x⟩ = true := by
  simp only [errorMapInvariant, allIssues, Bool.and_eq_true, Bool.or_eq_true]
  refine ⟨⟨⟨⟨fieldEntryOk_self _, fieldEntryOk_self _⟩, fieldEntryOk_self _⟩,
    Or.inl (fieldEntryOk_self _)⟩, ?_⟩
  by_cases h8 : d.password = d.confirmPassword
  · exact Or.inl (by simp [h8, fieldEntryOk_self])
  · cases hcf : confirmFilledOk d.confirmPassword with
    | true =>
      refine Or.inr ?_
      simp [confirmIssues, hcf, h8]
    | false => exact Or.inl (by simp [fieldEntryOk, confirmIssues, hcf])

theorem serverFailState_inv (s : SignUpState) (em : String) :
    errorMapInvariant (serverFailState s em) = true := by
  unfold serverFailState
  split
  · exact inv_of_emailMarked s.formData (some em) s.success
  · exact inv_of_empty s.formData (some em) s.success

/-- The submit step preserves the (amended) error-map invariant. -/
theorem handleSignUp_inv (s : SignUpState) (base : Option String) (fetched : FetchResult) :
    errorMapInvariant (handleSignUp s base fetched).1 = true := by
  unfold handleSignUp
  cases hp : signUpSafeParse s.formData with
  | error errs =>
    unfold signUpSafeParse at hp
    cases hb : (allIssues s.formData).isEmpty with
    | true => simp [hb] at hp
    | false =>
      simp only [hb, Bool.false_eq_true, if_false, Except.error.injEq] at hp
      subst hp
      exact inv_of_allIssues s.formData none s.success
  | ok data =>
    cases base with
    | none =>
      exact inv_of_empty s.formData
        (some "Configuration error. Cannot proceed with signup.") s.success
    | some b =>
      cases fetched with
      | rejected m => exact serverFailState_inv s _
      | resolved r =>
        cases hok : r.ok with
        | true => simpa [hok] using inv_of_empty s.formData none true
        | false => simpa [hok] using serverFailState_inv s _

/-- The edit step preserves the (amended) error-map invariant. -/
theorem handleChange_inv (s : SignUpState) (f : Field) (v : String)
    (h : errorMapInvariant s = true) : errorMapInvariant (handleChange s f v) = true := by
  simp only [errorMapInvariant, Bool.and_eq_true, Bool.or_eq_true, decide_eq_true_eq] at h
  obtain ⟨⟨⟨⟨hn, hmb⟩, hp⟩, he⟩, hc⟩ := h
  cases f with
  | name =>
    cases hcl : s.formErrors.name.isEmpty <;>
      simp only [handleChange, FormErrors.get, FormErrors.clear, SignUpFormData.set,
        editsPasswordPair, hcl, Bool.false_and, Bool.false_eq_true, if_false, if_true,
        errorMapInvariant, Bool.and_eq_true, Bool.or_eq_true, decide_eq_true_eq] <;>
      exact ⟨⟨⟨⟨by simp [fieldEntryOk, hcl], hmb⟩, hp⟩, he⟩, hc⟩
  | email =>
    cases hcl : s.formErrors.email.isEmpty <;>
      simp only [handleChange, FormErrors.get, FormErrors.clear, SignUpFormData.set,
        editsPasswordPair, hcl, Bool.false_and, Bool.false_eq_true, if_false, if_true,
        errorMapInvariant, Bool.and_eq_true, Bool.or_eq_true, decide_eq_true_eq] <;>
      exact ⟨⟨⟨⟨hn, hmb⟩, hp⟩, Or.inl (by simp [fieldEntryOk, hcl])⟩, hc⟩
  | mobileNumber =>
    cases hcl : s.formErrors.mobileNumber.isEmpty <;>
      simp only [handleChange, FormErrors.get, FormErrors.clear, SignUpFormData.set,
        editsPasswordPair, hcl, Bool.false_and, Bool.false_eq_true, if_false, if_true,
        errorMapInvariant, Bool.and_eq_true, Bool.or_eq_true, decide_eq_true_eq] <;>
      exact ⟨⟨⟨⟨hn, by simp [fieldEntryOk, hcl]⟩, hp⟩, he⟩, hc⟩
  | password =>
    cases hm : decide (s.formErrors.confirmPassword.head? = some "Passwords do not match") with
    | true =>
      cases hcl : s.formErrors.password.isEmpty <;>
        simp only [handleChange, FormErrors.get, FormErrors.clear, SignUpFormData.set,
          editsPasswordPair, hcl, hm, Bool.true_and, Bool.false_eq_true, if_false, if_true,
          errorMapInvariant, Bool.and_eq_true, Bool.or_eq_true, decide_eq_true_eq] <;>
        exact ⟨⟨⟨⟨hn, hmb⟩, by simp [fieldEntryOk, hcl]⟩, he⟩, Or.inl (by simp [fieldEntryOk])⟩
    | false =>
      cases hcl : s.formErrors.password.isEmpty <;>
        simp only [handleChange, FormErrors.get, FormErrors.clear, SignUpFormData.set,
          editsPasswordPair, hcl, hm, Bool.true_and, Bool.false_eq_true, if_false, if_true,
          errorMapInvariant, Bool.and_eq_true, Bool.or_eq_true, decide_eq_true_eq] <;>
        refine ⟨⟨⟨⟨hn, hmb⟩, by simp [fieldEntryOk, hcl]⟩, he⟩, ?_⟩ <;>
        · rcases hc with hc | ⟨hc1, _⟩
          · exact Or.inl hc
          · exact absurd (by rw [hc1]; rfl) (of_decide_eq_false hm)
  | confirmPassword =>
    cases hm : decide (s.formErrors.confirmPassword.head? = some "Passwords do not match") with
    | true =>
      cases hcl : s.formErrors.confirmPassword.isEmpty <;>
        simp only [handleChange, FormErrors.get, FormErrors.clear, SignUpFormData.set,
          editsPasswordPair, hcl, hm, Bool.true_and, Bool.false_eq_true, if_false, if_true,
          errorMapInvariant, Bool.and_eq_true, Bool.or_eq_true, decide_eq_true_eq] <;>
        exact ⟨⟨⟨⟨hn, hmb⟩, hp⟩, he⟩, Or.inl (by simp [fieldEntryOk])⟩
    | false =>
      cases hcl : s.formErrors.confirmPassword.isEmpty <;>
        simp only [handleChange, FormErrors.get, FormErrors.clear, SignUpFormData.set,
          editsPasswordPair, hcl, hm, Bool.true_and, Bool.false_eq_true, if_false, if_true,
          errorMapInvariant, Bool.and_eq_true, Bool.or_eq_true, decide_eq_true_eq] <;>
        exact ⟨⟨⟨⟨hn, hmb⟩, hp⟩, he⟩, Or.inl (by simp [fieldEntryOk, hcl])⟩

/-- The invariant is preserved over any event sequence from any invariant state. -/
theorem runSignUpFrom_inv (es : List SignUpEvent) (s : SignUpState)
    (h : errorMapInvariant s = true) :
    errorMapInvariant (es.foldl (fun s e => (signUpStep s e).1) s) = true := by
  induction es generalizing s with
  | nil => exact h
  | cons e es ih =>
    refine ih _ ?_
    cases e with
    | edit f v => exact handleChange_inv s f v h
    | submit b fr => exact handleSignUp_inv s b fr

/-- Editing a field always removes that field's error entry. -/
theorem handleChange_clears (s : SignUpState) (f : Field) (v : String) :
    (handleChange s f v).formErrors.get f = [] := by
  unfold handleChange
  cases f <;> dsimp only [FormErrors.get, editsPasswordPair] <;> split_ifs <;>
    simp_all [FormErrors.get, FormErrors.clear, List.isEmpty_iff]

/-- Editing the password field clears a confirmPassword entry whose sole
message is the mismatch message. -/
theorem handleChange_password_clears_mismatch (s : SignUpState) (v : String)
    (h : s.formErrors.confirmPassword = ["Passwords do not match"]) :
    (handleChange s .password v).formErrors.confirmPassword = [] := by
  unfold handleChange
  cases hcl : (s.formErrors.get .password).isEmpty <;>
    simp [FormErrors.get, FormErrors.clear, editsPasswordPair, hcl, h]

/-- The request list of a validated signup submission. -/
theorem handleSignUp_calls (s : SignUpState) (b : String) (fr : FetchResult)
    (data : SignUpFormData) (hp : signUpSafeParse s.formData = .ok data) :
    (handleSignUp s (some b) fr).2 =
      [⟨b ++ "/api/auth/signup", "POST",
        some (.signupBody data.name data.email (cleanMobile data.mobileNumber) data.password),
        false⟩] := by
  unfold handleSignUp
  rw [hp]
  cases fr with
  | rejected m => rfl
  | resolved r => cases hok : r.ok <;> simp [hok]

/-- The request list of a validated login submission. -/
theorem onSubmit_calls (d : LoginFormData) (b : String) (fr : FetchResult)
    (hv : loginValid d = true) :
    (onSubmit d (some b) fr).2 =
      [⟨b ++ "/api/auth/login", "POST", some (.loginBody d.email d.password), true⟩] := by
  unfold onSubmit
  rw [hv]
  cases fr with
  | rejected m => rfl
  | resolved r => cases hok : r.ok <;> simp [hok]

/-! ### Concrete states used by witnesses and counterexamples -/

/-- A fully valid signup state whose mobile number contains interior spaces. -/
def okState : SignUpState :=
  ⟨⟨"Al", "a@b.co", "12 345 678", "secret1", "secret1"⟩, FormErrors.empty, none, false⟩

/-- A signup state that is valid per field but whose passwords differ. -/
def mismatchState : SignUpState :=
  ⟨⟨"Al", "a@b.co", "12345678", "secret1", "secret2"⟩, FormErrors.empty, none, false⟩

/-- A signup state whose confirmPassword is empty while its password is set. -/
def emptyConfirmState : SignUpState :=
  ⟨⟨"Al", "a@b.co", "12345678", "secret1", ""⟩, FormErrors.empty, none, false⟩

/-- An event trace: fill the form validly, then submit against a server that
answers 409 "Email already registered". -/
def dupEmailEvents : List SignUpEvent :=
  [.edit .name "Al", .edit .email "a@b.co", .edit .mobileNumber "12345678",
   .edit .password "secret1", .edit .confirmPassword "secret1",
   .submit (some "http://api") (.resolved ⟨409, some ⟨some "Email already registered", none, none⟩⟩)]

/-! ### Claim theorems -/

/-- C1 counterexample: for a validated signup record the page issues its single
POST without the credentials-include option (`credentialsInclude = false`),
refuting "with cookies/credentials included in the request" for the signup
path. -/
theorem claim1_counterexample :
    (handleSignUp okState (some "http://api") (.resolved ⟨201, some ⟨none, none, none⟩⟩)).2 =
      [⟨"http://api/api/auth/signup", "POST",
        some (.signupBody "Al" "a@b.co" "12345678" "secret1"), false⟩] := by decide

/-- C1 (amended): for every validated record, exactly one POST is issued to the
configured base URL concatenated with the fixed path; the login request carries
`credentials: 'include'`, while the signup request is sent without that
option. -/
theorem claim1_submission_requests :
    (∀ (d : LoginFormData) (b : String) (fr : FetchResult), loginValid d = true →
      (onSubmit d (some b) fr).2 =
        [⟨b ++ "/api/auth/login", "POST", some (.loginBody d.email d.password), true⟩]) ∧
    (∀ (s : SignUpState) (b : String) (fr : FetchResult) (data : SignUpFormData),
      signUpSafeParse s.formData = .ok data →
      (handleSignUp s (some b) fr).2 =
        [⟨b ++ "/api/auth/signup", "POST",
          some (.signupBody data.name data.email (cleanMobile data.mobileNumber) data.password),
          false⟩]) :=
  ⟨fun d b fr hv => onSubmit_calls d b fr hv,
   fun s b fr data hp => handleSignUp_calls s b fr data hp⟩

/-- C1 witness: the request lists at concrete validated inputs. -/
theorem claim1_submission_requests_witness :
    (onSubmit ⟨"a@b.co", "secret1"⟩ (some "http://api") (.rejected "x")).2 =
      [⟨"http://api/api/auth/login", "POST", some (.loginBody "a@b.co" "secret1"), true⟩] ∧
    (handleSignUp okState (some "http://api") (.rejected "x")).2 =
      [⟨"http://api/api/auth/signup", "POST",
        some (.signupBody "Al" "a@b.co" "12345678" "secret1"), false⟩] :=
  ⟨claim1_submission_requests.1 ⟨"a@b.co", "secret1"⟩ "http://api" (.rejected "x") (by decide),
   claim1_submission_requests.2 okState "http://api" (.rejected "x")
     ⟨"Al", "a@b.co", "12 345 678", "secret1", "secret1"⟩ rfl⟩

/-- C2 counterexample: with the base URL unconfigured, submitting the empty
signup form yields a validation-error outcome (field errors set, no
configuration-error banner), refuting "the outcome is a configuration error"
for every submit attempt; no network call is issued. -/
theorem claim2_counterexample :
    (handleSignUp initialSignUpState none (.rejected "network down")).1.errorBanner = none ∧
    (handleSignUp initialSignUpState none (.rejected "network down")).1.formErrors.password =
      ["Password must be at least 6 characters"] ∧
    (handleSignUp initialSignUpState none (.rejected "network down")).2 = [] := by decide

/-- C2 (amended): with the base URL unconfigured, every submit attempt on any
of the three forms issues zero network calls, and whenever the attempt passes
the local validation (resp. the non-empty pre-check of the alternate login
page) its outcome is a configuration error. -/
theorem claim2_unconfigured :
    (∀ (d : LoginFormData) (fr : FetchResult),
      (onSubmit d none fr).2 = [] ∧
      (loginValid d = true → (onSubmit d none fr).1 = .configError)) ∧
    (∀ (e p : String) (fr : FetchResult),
      (altHandleSubmit e p none fr).2 = [] ∧
      (e ≠ "" → p ≠ "" → (altHandleSubmit e p none fr).1 = .configError)) ∧
    (∀ (s : SignUpState) (fr : FetchResult),
      (handleSignUp s none fr).2 = [] ∧
      (∀ data, signUpSafeParse s.formData = .ok data →
        (handleSignUp s none fr).1.errorBanner =
          some "Configuration error. Cannot proceed with signup.")) := by
  refine ⟨fun d fr => ?_, fun e p fr => ?_, fun s fr => ?_⟩
  · cases hv : loginValid d <;> simp [onSubmit, hv]
  · constructor
    · unfold altHandleSubmit
      split <;> rfl
    · intro he hp
      simp [altHandleSubmit, he, hp]
  · cases hp : signUpSafeParse s.formData with
    | error errs => simp [handleSignUp, hp]
    | ok data =>
      exact ⟨by simp [handleSignUp, hp], fun data2 hp2 => by simp [handleSignUp, hp]⟩

/-- C2 witness: configuration-error outcomes at concrete validated inputs. -/
theorem claim2_unconfigured_witness :
    (onSubmit ⟨"a@b.co", "secret1"⟩ none (.rejected "x")).1 = .configError ∧
    (altHandleSubmit "a@b.co" "secret1" none (.rejected "x")).1 = .configError ∧
    (handleSignUp okState none (.rejected "x")).1.errorBanner =
      some "Configuration error. Cannot proceed with signup." :=
  ⟨(claim2_unconfigured.1 ⟨"a@b.co", "secret1"⟩ (.rejected "x")).2 (by decide),
   (claim2_unconfigured.2.1 "a@b.co" "secret1" (.rejected "x")).2 (by decide) (by decide),
   (claim2_unconfigured.2.2 okState (.rejected "x")).2
     ⟨"Al", "a@b.co", "12 345 678", "secret1", "secret1"⟩ rfl⟩

/-- C3 counterexample: for a record with an empty name and an empty
confirmPassword (≠ password), the claim's rule list — which has no name rule
and whose only confirmPassword rule is equality with password — predicts no
name entry and the message "Passwords do not match" on confirmPassword; the
program reports a name entry and "Please confirm your password." (the unlisted
non-empty rule runs first), refuting the claim's rule list. -/
theorem claim3_counterexample :
    signUpOutcomeMap ⟨"", "a@b.co", "12345678", "secret1", ""⟩ =
      some ⟨some "Full name is required", none, none, none,
            some "Please confirm your password."⟩ := by decide

/-- C3 (amended): the Validator (a pure, total function) agrees with the
spec-worded rule list on every record: each field maps to the first violated
rule's message in rule order — name non-empty; email non-empty then shape;
mobile length then pattern; password length; confirmPassword non-empty then
equal to password, reported on confirmPassword. -/
theorem claim3_validator_matches_spec (d : SignUpFormData) :
    signUpOutcomeMap d = validatorAsSpecified d := by
  unfold signUpOutcomeMap validatorAsSpecified signUpSafeParse
  cases h1 : nameFilledOk d.name <;> cases h2 : emailFilledOk d.email <;>
  cases h3 : emailShapeOk d.email <;> cases h4 : mobileLenOk d.mobileNumber <;>
  cases h5 : mobileShapeOk d.mobileNumber <;> cases h6 : passwordLenOk d.password <;>
  cases h7 : confirmFilledOk d.confirmPassword <;> cases h8 : d.password == d.confirmPassword <;>
  simp [allIssues, nameIssues, emailIssues, mobileIssues, passwordIssues, confirmIssues,
        FormErrors.isEmpty, firstViolated, h1, h2, h3, h4, h5, h6, h7, h8]

/-- C4 counterexample: the validated record keeps the interior spaces of the
mobile number, but the serialized body carries the whitespace-stripped value,
so the body is not exactly the validated record's fields. -/
theorem claim4_counterexample :
    signUpSafeParse okState.formData =
      .ok ⟨"Al", "a@b.co", "12 345 678", "secret1", "secret1"⟩ ∧
    ((handleSignUp okState (some "http://api")
        (.resolved ⟨201, some ⟨none, none, none⟩⟩)).2.map Request.body) =
      [some (.signupBody "Al" "a@b.co" "12345678" "secret1")] :=
  ⟨rfl, by decide⟩

/-- C4 (amended): the signup request body is exactly the validated record's
name, email and password together with its mobile number stripped of all
whitespace, and no confirmPassword field. -/
theorem claim4_signup_body (s : SignUpState) (b : String) (fr : FetchResult)
    (data : SignUpFormData) (hp : signUpSafeParse s.formData = .ok data) :
    ((handleSignUp s (some b) fr).2.map Request.body) =
      [some (.signupBody data.name data.email (cleanMobile data.mobileNumber) data.password)] := by
  rw [handleSignUp_calls s b fr data hp]
  rfl

/-- C4 witness: the body at a concrete validated input. -/
theorem claim4_signup_body_witness :
    ((handleSignUp okState (some "http://api") (.rejected "x")).2.map Request.body) =
      [some (.signupBody "Al" "a@b.co" "12345678" "secret1")] :=
  claim4_signup_body okState "http://api" (.rejected "x")
    ⟨"Al", "a@b.co", "12 345 678", "secret1", "secret1"⟩ rfl

/-- C5: a 401 response with body `{"error":"Invalid credentials"}` makes both
login pages display exactly "Invalid credentials". -/
theorem claim5_invalid_credentials (d : LoginFormData) (b e p : String)
    (hv : loginValid d = true) (he : e ≠ "") (hp : p ≠ "") :
    (onSubmit d (some b)
        (.resolved ⟨401, some ⟨some "Invalid credentials", none, none⟩⟩)).1 =
      .failure "Invalid credentials" ∧
    (altHandleSubmit e p (some b)
        (.resolved ⟨401, some ⟨some "Invalid credentials", none, none⟩⟩)).1 =
      .failure "Invalid credentials" := by
  have he' : (e == "") = false := beq_eq_false_iff_ne.mpr he
  have hp' : (p == "") = false := beq_eq_false_iff_ne.mpr hp
  constructor
  · unfold onSubmit
    rw [hv]
    rfl
  · unfold altHandleSubmit
    rw [he', hp']
    rfl

/-- C5 witness: the displayed messages at concrete inputs. -/
theorem claim5_invalid_credentials_witness :
    (onSubmit ⟨"a@b.co", "secret1"⟩ (some "http://api")
        (.resolved ⟨401, some ⟨some "Invalid credentials", none, none⟩⟩)).1 =
      .failure "Invalid credentials" ∧
    (altHandleSubmit "a@b.co" "secret1" (some "http://api")
        (.resolved ⟨401, some ⟨some "Invalid credentials", none, none⟩⟩)).1 =
      .failure "Invalid credentials" :=
  claim5_invalid_credentials ⟨"a@b.co", "secret1"⟩ "http://api" "a@b.co" "secret1"
    (by decide) (by decide) (by decide)

/-- C6 counterexample: when the alternate login page receives a non-success
status whose body does not parse, the surfaced message is the fixed string
"Invalid credentials", which does not contain "status 500", refuting the
claim's "status N" fallback for that coordinator. -/
theorem claim6_counterexample :
    (altHandleSubmit "a@b.co" "secret1" (some "http://api") (.resolved ⟨500, none⟩)).1 =
      .failure "Invalid credentials" ∧
    containsStr "Invalid credentials" "status 500" = false := by decide

/-- C6 (amended): on a non-success status whose body fails to parse, the main
login page surfaces the fallback message "Login failed (status N)" — shown
below to contain the substring "status N" — while the alternate login page
falls back to the fixed message "Invalid credentials"; each coordinator issues
exactly one request, with no retry. -/
theorem claim6_status_fallback (d : LoginFormData) (b : String) (st : Nat)
    (hv : loginValid d = true) (hok : Response.ok ⟨st, none⟩ = false) :
    (onSubmit d (some b) (.resolved ⟨st, none⟩)).1 = .failure (loginStatusMsg st) ∧
    (onSubmit d (some b) (.resolved ⟨st, none⟩)).2.length = 1 ∧
    loginStatusMsg st = "Login failed (" ++ ("status " ++ toString st) ++ ")" ∧
    (∀ e p : String, e ≠ "" → p ≠ "" →
      (altHandleSubmit e p (some b) (.resolved ⟨st, none⟩)).1 =
        .failure "Invalid credentials" ∧
      (altHandleSubmit e p (some b) (.resolved ⟨st, none⟩)).2.length = 1) := by
  refine ⟨?_, ?_, ?_, ?_⟩
  · simp [onSubmit, hv, hok]
  · simp [onSubmit_calls d b (.resolved ⟨st, none⟩) hv]
  · rw [show loginStatusMsg st = ("Login failed (" ++ "status ") ++ toString st ++ ")" from rfl]
    rw [strAppend_assoc "Login failed (" "status " (toString st)]
  · intro e p he hp
    have he' : (e == "") = false := beq_eq_false_iff_ne.mpr he
    have hp' : (p == "") = false := beq_eq_false_iff_ne.mpr hp
    constructor
    · simp [altHandleSubmit, he', hp', hok, jsOrStr]
    · simp [altHandleSubmit, he', hp', hok]

/-- C6 witness: the fallback messages at status 500. -/
theorem claim6_status_fallback_witness :
    (onSubmit ⟨"a@b.co", "secret1"⟩ (some "http://api") (.resolved ⟨500, none⟩)).1 =
      .failure (loginStatusMsg 500) ∧
    (onSubmit ⟨"a@b.co", "secret1"⟩ (some "http://api") (.resolved ⟨500, none⟩)).2.length = 1 ∧
    loginStatusMsg 500 = "Login failed (" ++ ("status " ++ toString (500 : Nat)) ++ ")" ∧
    (altHandleSubmit "a@b.co" "secret1" (some "http://api") (.resolved ⟨500, none⟩)).1 =
      .failure "Invalid credentials" ∧
    (altHandleSubmit "a@b.co" "secret1" (some "http://api") (.resolved ⟨500, none⟩)).2.length =
      1 :=
  have h := claim6_status_fallback ⟨"a@b.co", "secret1"⟩ "http://api" 500 (by decide) (by decide)
  ⟨h.1, h.2.1, h.2.2.1, (h.2.2.2 "a@b.co" "secret1" (by decide) (by decide)).1,
   (h.2.2.2 "a@b.co" "secret1" (by decide) (by decide)).2⟩

/-- C7 counterexample: a 500 response whose body does contain a user payload
does not redirect — the page falls through to the form — refuting "if the
response contains a user payload it redirects". -/
theorem claim7_counterexample :
    sessionCheck (some "http://api") (.resolved ⟨500, some ⟨none, none, some "u"⟩⟩) =
      (.renderForm, [⟨"http://api/api/auth/session", "GET", none, true⟩]) := by decide

/-- C7 (amended): with no base URL nothing is fetched and the form renders;
with a base URL exactly one GET with credentials is issued (single-shot, no
retry); a redirect happens precisely on an ok response whose parsed body
carries a truthy (present, non-empty) user payload; an ok response without a
truthy user, a non-ok response (even with a user payload), and a rejected
fetch all fall through to rendering the form. -/
theorem claim7_session_precheck :
    (∀ fr, sessionCheck none fr = (.renderForm, [])) ∧
    (∀ (b : String) (fr : FetchResult),
      (sessionCheck (some b) fr).2 = [⟨b ++ "/api/auth/session", "GET", none, true⟩]) ∧
    (∀ (b : String) (r : Response),
      Response.ok r = true → sessionUserTruthy r = true →
      (sessionCheck (some b) (.resolved r)).1 = .redirect) ∧
    (∀ (b : String) (r : Response),
      (Response.ok r = true → sessionUserTruthy r = false) →
      (sessionCheck (some b) (.resolved r)).1 = .renderForm) ∧
    (∀ (b m : String), (sessionCheck (some b) (.rejected m)).1 = .renderForm) := by
  refine ⟨fun fr => rfl, fun b fr => ?_, fun b r hok hu => ?_, fun b r h => ?_, fun b m => rfl⟩
  · cases fr with
    | rejected m => rfl
    | resolved r =>
      cases hok : r.ok with
      | false => simp [sessionCheck, hok]
      | true =>
        cases hu : sessionUserTruthy r <;> simp [sessionCheck, hok, hu]
  · simp [sessionCheck, hok, hu]
  · cases hok : r.ok with
    | false => simp [sessionCheck, hok]
    | true =>
      have h2 := h hok
      simp [sessionCheck, hok, h2]

/-- C7 witness: a redirect on an ok response with a non-empty user, a
fall-through on an ok response whose user is the empty string, and the
no-fetch fall-through with the base URL unset. -/
theorem claim7_session_precheck_witness :
    (sessionCheck (some "http://api") (.resolved ⟨200, some ⟨none, none, some "u"⟩⟩)).1 =
      .redirect ∧
    (sessionCheck (some "http://api") (.resolved ⟨200, some ⟨none, none, some ""⟩⟩)).1 =
      .renderForm ∧
    (sessionCheck none (.rejected "x")) = (.renderForm, []) :=
  ⟨claim7_session_precheck.2.2.1 "http://api" ⟨200, some ⟨none, none, some "u"⟩⟩
     (by decide) (by decide),
   claim7_session_precheck.2.2.2.1 "http://api" ⟨200, some ⟨none, none, some ""⟩⟩
     (fun _ => by decide),
   claim7_session_precheck.1 (.rejected "x")⟩

/-- C8 counterexample: for the record with password "secret1" and empty
confirmPassword (so confirmPassword ≠ password), submission is blocked with a
confirmPassword error whose first message is "Please confirm your password.",
and subsequently editing the password field leaves that entry in place —
refuting "changing either the password field or the confirmPassword field
clears that specific confirmPassword error". -/
theorem claim8_counterexample :
    emptyConfirmState.formData.password = "secret1" ∧
    emptyConfirmState.formData.confirmPassword = "" ∧
    (handleSignUp emptyConfirmState (some "http://api") (.rejected "x")).2 = [] ∧
    (handleSignUp emptyConfirmState (some "http://api")
        (.rejected "x")).1.formErrors.confirmPassword =
      ["Please confirm your password.", "Passwords do not match"] ∧
    (handleChange (handleSignUp emptyConfirmState (some "http://api") (.rejected "x")).1
        .password "other1").formErrors.confirmPassword =
      ["Please confirm your password.", "Passwords do not match"] := by decide

/-- C8 (amended): for every registration input where confirmPassword ≠
password, submission is blocked with a confirmPassword error whose list
contains "Passwords do not match", and no network call is issued; editing the
confirmPassword field always clears that entry, and when the confirmPassword
field is non-empty — so that the mismatch message is the entry's first
message — the entry is exactly ["Passwords do not match"] and editing the
password field also clears it. -/
theorem claim8_mismatch_blocks (s : SignUpState) (base : Option String) (fr : FetchResult)
    (hne : s.formData.password ≠ s.formData.confirmPassword) :
    (handleSignUp s base fr).2 = [] ∧
    "Passwords do not match" ∈ (handleSignUp s base fr).1.formErrors.confirmPassword ∧
    (∀ v, (handleChange (handleSignUp s base fr).1
        .confirmPassword v).formErrors.confirmPassword = []) ∧
    (confirmFilledOk s.formData.confirmPassword = true →
      (handleSignUp s base fr).1.formErrors.confirmPassword = ["Passwords do not match"] ∧
      ∀ v, (handleChange (handleSignUp s base fr).1
          .password v).formErrors.confirmPassword = []) := by
  have hb : (s.formData.password == s.formData.confirmPassword) = false :=
    beq_eq_false_iff_ne.mpr hne
  have hempty : (allIssues s.formData).isEmpty = false := by
    simp [allIssues, FormErrors.isEmpty, hb]
  have hp : signUpSafeParse s.formData = .error (allIssues s.formData) := by
    unfold signUpSafeParse
    simp [hempty]
  have hstep : handleSignUp s base fr =
      (⟨s.formData, allIssues s.formData, none, s.success⟩, []) := by
    unfold handleSignUp
    rw [hp]
  rw [hstep]
  refine ⟨rfl, ?_, fun v => handleChange_clears _ .confirmPassword v, fun hcf => ?_⟩
  · simp [allIssues, hb]
  · have hcp : (allIssues s.formData).confirmPassword = ["Passwords do not match"] := by
      simp [allIssues, confirmIssues, hcf, hb]
    exact ⟨hcp, fun v => handleChange_password_clears_mismatch _ v hcp⟩

/-- C8 witness: blocking and both clearings at a concrete mismatched record
with a non-empty confirmPassword. -/
theorem claim8_mismatch_blocks_witness :
    (handleSignUp mismatchState (some "http://api") (.rejected "x")).2 = [] ∧
    "Passwords do not match" ∈
      (handleSignUp mismatchState (some "http://api")
        (.rejected "x")).1.formErrors.confirmPassword ∧
    (handleChange (handleSignUp mismatchState (some "http://api") (.rejected "x")).1
        .confirmPassword "secret1").formErrors.confirmPassword = [] ∧
    (handleSignUp mismatchState (some "http://api")
        (.rejected "x")).1.formErrors.confirmPassword = ["Passwords do not match"] ∧
    (handleChange (handleSignUp mismatchState (some "http://api") (.rejected "x")).1
        .password "secret2").formErrors.confirmPassword = [] :=
  have h := claim8_mismatch_blocks mismatchState (some "http://api") (.rejected "x") (by decide)
  ⟨h.1, h.2.1, h.2.2.1 "secret1", (h.2.2.2 (by decide)).1, (h.2.2.2 (by decide)).2 "secret2"⟩

/-- C9 counterexample: after a valid fill and a submit answered by a 409
duplicate-email response, the error map carries an email entry although the
email field's current value is valid (its issue list is empty), refuting "a
field name appears in the error map only while that field's current value is
invalid". -/
theorem claim9_counterexample :
    (runSignUp dupEmailEvents).formErrors.email = ["This email is already registered."] ∧
    (runSignUp dupEmailEvents).formData.email = "a@b.co" ∧
    emailIssues (runSignUp dupEmailEvents).formData.email = [] := by decide

/-- C9 (amended): over every event sequence from the initial state, a field
with an error entry has an invalid current value, except that the email entry
may instead be the server-reported duplicate-registration message and the
confirmPassword entry may instead be the mismatch message while the password
values differ; and editing any field always removes that field's entry. -/
theorem claim9_error_map_invariant :
    (∀ es : List SignUpEvent, errorMapInvariant (runSignUp es) = true) ∧
    (∀ (s : SignUpState) (f : Field) (v : String),
      (handleChange s f v).formErrors.get f = []) :=
  ⟨fun es => runSignUpFrom_inv es initialSignUpState (by decide),
   fun s f v => handleChange_clears s f v⟩

/-- C10: every greeting click outcome determines the displayed message
totally: a resolved fetch displays the response body text whatever the status,
and a rejected fetch displays exactly "Failed to fetch greeting.". -/
theorem claim10_greeting_message :
    (∀ (st : Nat) (t : String), handleClick (.resolved ⟨st, t⟩) = t) ∧
    handleClick .rejected = "Failed to fetch greeting." :=
  ⟨fun _ _ => rfl, rfl⟩

end Digisaga


